import Mathlib

/-!
Shallow embedding of the route-optimization app (`src/app.py`) and proofs of
its specified properties.

The app has three pure-logic functions — `open_in_Maps`, `read_addresses_from_excel`
and `get_optimized_route_data` — plus Streamlit session-state handlers
(`add_destination`, the file-upload branch, and the optimize-button branch).
Python floats are modelled as exact rationals; Python `round` is
round-half-to-even; missing/unparseable inputs are modelled with `Option`,
and the HTTP transport result with `Except`.
-/

namespace RouteApp

/-- Python round-half-to-even (banker's rounding) on an exact rational,
as applied by `round(x)` on nonnegative route data. -/
def pyRound (q : ℚ) : ℤ :=
  let f := q.floor
  let r := q - (f : ℚ)
  if r < 1 / 2 then f
  else if 1 / 2 < r then f + 1
  else if f % 2 = 0 then f else f + 1

/-- Value of a spreadsheet cell: `cell.value` is either a text string or some
non-text value (number, date, blank, ...), which the code only ever tests
with `isinstance(cell.value, str)`. -/
inductive CellValue where
  | text (s : String)
  | numeric (q : ℚ)
  | empty
deriving DecidableEq, Repr

/-- Membership test of Python's `needle in hay` on strings, as a scan over
character lists. -/
def isSubstring (needle : List Char) : List Char → Bool
  | [] => needle.isEmpty
  | c :: rest => needle.isPrefixOf (c :: rest) || isSubstring needle rest

/-- Address-indicator keywords from `read_addresses_from_excel`. -/
def addressKeywords : List String :=
  ["都", "道", "府", "県", "市", "区", "町", "丁目", "番地"]

/-- The inner check `any(keyword in cell.value for keyword in [...])`. -/
def hasAddressKeyword (s : String) : Bool :=
  addressKeywords.any (fun kw => isSubstring kw.data s.data)

/-- One iteration of the cell loop in `read_addresses_from_excel`: append the
cell's value to the accumulator when it is text, longer than 5 characters and
contains an address keyword. -/
def scan_cell (addresses : List String) (cell : CellValue) : List String :=
  match cell with
  | CellValue.text s =>
      if 5 < s.length then
        if hasAddressKeyword s then addresses ++ [s] else addresses
      else addresses
  | _ => addresses

/-- The extractor `read_addresses_from_excel`: the document is `none` when
`openpyxl.load_workbook` raises (the `except` branch returns `None`),
otherwise the active sheet's rows of cells are scanned row by row,
left to right, appending matching cell values. -/
def read_addresses_from_excel (doc : Option (List (List CellValue))) :
    Option (List String) :=
  match doc with
  | none => none
  | some sheet => some (sheet.foldl (fun acc row => row.foldl scan_cell acc) [])

/-- A displayed route segment: the dict
`{from, to, distance (one-decimal km), time (integer minutes)}`. -/
structure Segment where
  from_addr : String
  to_addr : String
  distance : ℚ
  time : ℤ
deriving DecidableEq, Repr

/-- UTF-8 encoding of one character, as a list of byte values. -/
def utf8Bytes (c : Char) : List ℕ :=
  let n := c.toNat
  if n < 128 then [n]
  else if n < 2048 then [192 + n / 64, 128 + n % 64]
  else if n < 65536 then [224 + n / 4096, 128 + (n / 64) % 64, 128 + n % 64]
  else [240 + n / 262144, 128 + (n / 4096) % 64, 128 + (n / 64) % 64, 128 + n % 64]

/-- Bytes that `requests.utils.quote` leaves unescaped with its default
`safe='/'`: ALPHA, DIGIT, `-`, `.`, `_`, `~` and `/`. -/
def isQuoteSafe (b : ℕ) : Bool :=
  (65 ≤ b && b ≤ 90) || (97 ≤ b && b ≤ 122) || (48 ≤ b && b ≤ 57) ||
  b = 45 || b = 46 || b = 95 || b = 126 || b = 47

/-- Uppercase hexadecimal digit for a value below 16. -/
def hexDigit (n : ℕ) : Char :=
  if n < 10 then Char.ofNat (48 + n) else Char.ofNat (55 + n)

/-- Percent-encoding of one byte. -/
def quoteByte (b : ℕ) : String :=
  if isQuoteSafe b then String.singleton (Char.ofNat b)
  else "%" ++ String.singleton (hexDigit (b / 16)) ++ String.singleton (hexDigit (b % 16))

/-- The percent-encoder `requests.utils.quote` (UTF-8 bytes, default safe set). -/
def quote (s : String) : String :=
  String.join ((s.data.flatMap utf8Bytes).map quoteByte)

/-- The map-link builder `open_in_Maps`. The Python function reads the API
key from `st.secrets`, here an explicit argument; its `origin` parameter is
unused, as in the source. An empty segment list returns nothing (`return`
with no value, i.e. `None`). -/
def open_in_Maps (api_key : String) (origin : String)
    (optimized_segments : List Segment) : Option String :=
  match optimized_segments with
  | [] => none
  | s0 :: rest =>
    let start_point := s0.from_addr
    let waypoints := ((s0 :: rest).dropLast).map Segment.to_addr
    let final_destination := ((s0 :: rest).getLast (List.cons_ne_nil s0 rest)).to_addr
    let origin_encoded := quote start_point
    let waypoints_encoded := quote (String.intercalate "|" waypoints)
    let final_destination_encoded := quote final_destination
    some ("https://www.google.com/maps/embed/v1/directions?"
      ++ "key=" ++ api_key ++ "&"
      ++ "origin=" ++ origin_encoded ++ "&"
      ++ "destination=" ++ final_destination_encoded ++ "&"
      ++ "waypoints=" ++ waypoints_encoded)

/-- One leg of the provider response: `routes[0].legs[i]` with its
`start_address`, `end_address`, `distance.value` (meters) and
`duration.value` (seconds), the latter two nonnegative integers. -/
structure LegData where
  start_address : String
  end_address : String
  distance_value : ℕ
  duration_value : ℕ
deriving DecidableEq, Repr

/-- One route of the provider response; the code reads only its `legs`. -/
structure RouteData where
  legs : List LegData
deriving DecidableEq, Repr

/-- The parsed JSON body of the directions response. -/
structure DirectionsResponse where
  status : String
  routes : List RouteData
deriving DecidableEq, Repr

/-- The route summary dict built on provider status `"OK"`. -/
structure RouteSummary where
  total_distance : ℚ
  total_time : ℤ
  segments : List Segment
  Maps_result : RouteData
deriving DecidableEq, Repr

/-- The per-leg segment dict built inside the legs loop. -/
def segment_of_leg (leg : LegData) : Segment :=
  { from_addr := leg.start_address
    to_addr := leg.end_address
    distance := (pyRound ((leg.distance_value : ℚ) / 100) : ℚ) / 10
    time := pyRound ((leg.duration_value : ℚ) / 60) }

/-- The summary dict returned on status `"OK"`: totals from the leg sums and
the per-leg segments in provider order. -/
def route_summary_of_route (route : RouteData) : RouteSummary :=
  let legs := route.legs
  let total_distance : ℚ := ((legs.map (fun l => l.distance_value)).sum : ℚ) / 1000
  let total_duration : ℚ := ((legs.map (fun l => l.duration_value)).sum : ℚ) / 60
  { total_distance := (pyRound (total_distance * 10) : ℚ) / 10
    total_time := pyRound total_duration
    segments := legs.map segment_of_leg
    Maps_result := route }

/-- The route requester `get_optimized_route_data`. The second component
records whether the HTTP GET was issued: an empty destination list returns
`None` before any request. The transport result is `Except`: `error` models
a raised `requests.exceptions.RequestException`, caught and turned into
`None`. Under status `"OK"` the code indexes `routes[0]`; an empty `routes`
list there is outside the caught exception class and yields no summary. -/
def get_optimized_route_data (api_key : String) (origin : String)
    (destinations : List String)
    (transport : Except String DirectionsResponse) :
    Option RouteSummary × Bool :=
  if destinations = [] then (none, false)
  else
    match transport with
    | Except.error _ => (none, true)
    | Except.ok data =>
      if data.status = "OK" then
        match data.routes.head? with
        | some route => (some (route_summary_of_route route), true)
        | none => (none, true)
      else (none, true)

/-- The Streamlit session state fields the handlers read and write. -/
structure AppState where
  destinations : List String
  optimized_route_data : Option RouteSummary
  map_url : Option String
  new_dest_input : String
  addresses_to_select : Option (List String)
deriving DecidableEq, Repr

/-- The `add_destination` callback: a nonempty input is appended to the
destination list and the field cleared; an empty input (falsy) does nothing. -/
def add_destination (st : AppState) : AppState :=
  if st.new_dest_input = "" then st
  else { st with destinations := st.destinations ++ [st.new_dest_input]
                 new_dest_input := "" }

/-- The file-upload branch: extraction failure (`None`) or an empty result
(falsy) leaves the state alone; more than 23 addresses go to the
pending-selection buffer `addresses_to_select`; otherwise they are appended
to the destination list. -/
def file_upload_handler (doc : Option (List (List CellValue)))
    (st : AppState) : AppState :=
  match read_addresses_from_excel doc with
  | none => st
  | some addrs =>
    if addrs = [] then st
    else if 23 < addrs.length then { st with addresses_to_select := some addrs }
    else { st with destinations := st.destinations ++ addrs }

/-- The optimize-button branch: an empty origin or an empty destination list
is rejected with an error message and no state change; otherwise the
requester's result is stored in `optimized_route_data` unconditionally, and
only when a summary was returned is `map_url` recomputed from its segments. -/
def optimize_handler (api_key : String) (start_location : String)
    (transport : Except String DirectionsResponse)
    (st : AppState) : AppState :=
  if start_location = "" ∨ st.destinations = [] then st
  else
    let route_data :=
      (get_optimized_route_data api_key start_location st.destinations transport).1
    let st1 := { st with optimized_route_data := route_data }
    match route_data with
    | some rd =>
        { st1 with map_url := open_in_Maps api_key start_location rd.segments }
    | none => st1

/-- Claim-side characterization of an extracted address, following the spec's
words: the cell value is kept exactly when it is text, has length strictly
greater than 5 and contains at least one address-indicator keyword. -/
def addressCandidate : CellValue → Option String
  | CellValue.text s =>
      if 5 < s.length && hasAddressKeyword s then some s else none
  | _ => none

/-- A failed route request: either a transport error was raised, or the
provider answered with a status other than `"OK"`. -/
def requestFailed (t : Except String DirectionsResponse) : Prop :=
  match t with
  | Except.error _ => True
  | Except.ok data => data.status ≠ "OK"

/-- A sample summary, as produced from a one-leg `"OK"` response. -/
def sampleSummary : RouteSummary :=
  route_summary_of_route ⟨[⟨"O", "A", 1000, 60⟩]⟩

/-- A session state holding a previously computed route summary. -/
def stateWithRoute : AppState :=
  { destinations := ["A"]
    optimized_route_data := some sampleSummary
    map_url := some "u"
    new_dest_input := ""
    addresses_to_select := none }

/-- A provider response with a failing status. -/
def zeroResultsResponse : DirectionsResponse :=
  { status := "ZERO_RESULTS", routes := [] }

/-- A one-leg route, as parsed from a successful response. -/
def sampleRoute : RouteData :=
  { legs := [⟨"O", "A", 1234, 600⟩] }

/-- A successful provider response carrying `sampleRoute`. -/
def sampleOkResponse : DirectionsResponse :=
  { status := "OK", routes := [sampleRoute] }

/-- A fresh session state: empty destination list, nothing computed. -/
def emptyState : AppState :=
  { destinations := []
    optimized_route_data := none
    map_url := none
    new_dest_input := ""
    addresses_to_select := none }

/-- A sheet whose cells yield 24 extracted addresses, exceeding the 23 cap. -/
def bigSheet : List (List CellValue) :=
  List.replicate 24 [CellValue.text "東京都千代田区一番町1"]

/-!
## Lemmas about the extractor's accumulation loop
-/

/-- One step of the cell scan appends exactly the candidate of that cell. -/
theorem scan_cell_eq_append (acc : List String) (cell : CellValue) :
    scan_cell acc cell = acc ++ (addressCandidate cell).toList := by
  cases cell with
  | text s =>
      by_cases h1 : 5 < s.length
      · by_cases h2 : hasAddressKeyword s = true
        · simp [scan_cell, addressCandidate, h1, h2]
        · simp [scan_cell, addressCandidate, h1, h2]
      · simp [scan_cell, addressCandidate, h1]
  | numeric q => simp [scan_cell, addressCandidate]
  | empty => simp [scan_cell, addressCandidate]

/-- The inner cell loop of the extractor is filtering by `addressCandidate`. -/
theorem foldl_scan_cell (row : List CellValue) (acc : List String) :
    row.foldl scan_cell acc = acc ++ row.filterMap addressCandidate := by
  induction row generalizing acc with
  | nil => simp
  | cons c cs ih =>
      rw [List.foldl_cons, ih, scan_cell_eq_append]
      cases h : addressCandidate c <;> simp [h, List.filterMap_cons]

/-- The outer row loop of the extractor filters the row-major cell sequence. -/
theorem foldl_rows_scan (sheet : List (List CellValue)) (acc : List String) :
    sheet.foldl (fun a row => row.foldl scan_cell a) acc
      = acc ++ (sheet.flatten).filterMap addressCandidate := by
  induction sheet generalizing acc with
  | nil => simp
  | cons r rs ih =>
      rw [List.foldl_cons, ih, foldl_scan_cell]
      simp [List.filterMap_append]

/-!
## Claims
-/

/-- Claim C1: for every successful provider response with legs L1..Ln, the
returned summary's total distance equals `round(sum of leg distances in
meters / 100) / 10` (kilometers, one decimal) and its total time equals
`round(sum of leg durations in seconds / 60)` (integer minutes). -/
theorem C1_route_totals (api_key origin : String) (destinations : List String)
    (data : DirectionsResponse) (route : RouteData) (rs : List RouteData)
    (hne : destinations ≠ []) (hok : data.status = "OK")
    (hroutes : data.routes = route :: rs) :
    ∃ summary : RouteSummary,
      (get_optimized_route_data api_key origin destinations (Except.ok data)).1
          = some summary ∧
      summary.total_distance
          = (pyRound (((route.legs.map (fun l => l.distance_value)).sum : ℚ) / 100) : ℚ) / 10 ∧
      summary.total_time
          = pyRound (((route.legs.map (fun l => l.duration_value)).sum : ℚ) / 60) := by
  refine ⟨route_summary_of_route route, ?_, ?_, ?_⟩
  · simp [get_optimized_route_data, hne, hok, hroutes]
  · have h : (((route.legs.map (fun l => l.distance_value)).sum : ℚ) / 1000) * 10
        = ((route.legs.map (fun l => l.distance_value)).sum : ℚ) / 100 := by ring
    simp [route_summary_of_route, h]
  · simp [route_summary_of_route]

/-- Witness for C1 on a concrete one-leg `"OK"` response. -/
theorem C1_route_totals_witness :
    ∃ summary : RouteSummary,
      (get_optimized_route_data "K" "O" ["A"] (Except.ok sampleOkResponse)).1
          = some summary ∧
      summary.total_distance
          = (pyRound (((sampleRoute.legs.map (fun l => l.distance_value)).sum : ℚ) / 100) : ℚ) / 10 ∧
      summary.total_time
          = pyRound (((sampleRoute.legs.map (fun l => l.duration_value)).sum : ℚ) / 60) :=
  C1_route_totals "K" "O" ["A"] sampleOkResponse sampleRoute []
    (by decide) rfl rfl

/-- Claim C2: for every readable document, the extractor's output is exactly
the row-major sequence of those cell values that are text, longer than
5 characters and contain at least one address-indicator keyword; all other
cells are excluded. -/
theorem C2_extractor_exact (sheet : List (List CellValue)) :
    read_addresses_from_excel (some sheet)
      = some ((sheet.flatten).filterMap addressCandidate) := by
  simp [read_addresses_from_excel, foldl_rows_scan]

/-- Claim C3, as stated, is false: after a failed optimize action the
previously stored route summary is not left unchanged. Concretely, with a
stored summary in session state and a `"ZERO_RESULTS"` response, the stored
summary changes (it is overwritten). -/
theorem C3_counterexample :
    requestFailed (Except.ok zeroResultsResponse) ∧
    (optimize_handler "K" "O" (Except.ok zeroResultsResponse)
        stateWithRoute).optimized_route_data
      ≠ stateWithRoute.optimized_route_data := by
  constructor
  · show ("ZERO_RESULTS" : String) ≠ "OK"
    decide
  · have h1 : (optimize_handler "K" "O" (Except.ok zeroResultsResponse)
        stateWithRoute).optimized_route_data = none := rfl
    have h2 : stateWithRoute.optimized_route_data = some sampleSummary := rfl
    rw [h1, h2]
    exact fun h => Option.noConfusion h

/-- Claim C3 (amended): on a non-`"OK"` provider status or a transport
failure, the requester returns no summary, and the caller overwrites the
previously stored route summary with the no-result value. -/
theorem C3_failed_request_overwrites (api_key start_location : String)
    (t : Except String DirectionsResponse) (st : AppState)
    (ho : start_location ≠ "") (hd : st.destinations ≠ [])
    (hfail : requestFailed t) :
    (get_optimized_route_data api_key start_location st.destinations t).1 = none ∧
    (optimize_handler api_key start_location t st).optimized_route_data = none := by
  have hget :
      (get_optimized_route_data api_key start_location st.destinations t).1 = none := by
    cases t with
    | error e => simp [get_optimized_route_data, hd]
    | ok data =>
        have hst : data.status ≠ "OK" := hfail
        simp [get_optimized_route_data, hd, hst]
  refine ⟨hget, ?_⟩
  simp [optimize_handler, ho, hd, hget]

/-- Witness for the amended C3 on a concrete failing response and a state
holding a previous summary. -/
theorem C3_failed_request_overwrites_witness :
    (get_optimized_route_data "K" "O" stateWithRoute.destinations
        (Except.ok zeroResultsResponse)).1 = none ∧
    (optimize_handler "K" "O" (Except.ok zeroResultsResponse)
        stateWithRoute).optimized_route_data = none :=
  C3_failed_request_overwrites "K" "O" (Except.ok zeroResultsResponse) stateWithRoute
    (by decide) (by decide) (show ("ZERO_RESULTS" : String) ≠ "OK" by decide)

/-- Claim C4: for every non-empty segment sequence, the built URL's origin is
the first segment's `from` address, its waypoints are the `to` addresses of
every segment but the last joined with a pipe, and its destination is the
last segment's `to` address, each percent-encoded independently. -/
theorem C4_map_link (api_key origin : String) (s0 : Segment) (rest : List Segment) :
    open_in_Maps api_key origin (s0 :: rest)
      = some ("https://www.google.com/maps/embed/v1/directions?"
          ++ "key=" ++ api_key ++ "&"
          ++ "origin=" ++ quote (s0.from_addr) ++ "&"
          ++ "destination="
            ++ quote (((s0 :: rest).getLast (List.cons_ne_nil s0 rest)).to_addr) ++ "&"
          ++ "waypoints="
            ++ quote (String.intercalate "|" (((s0 :: rest).dropLast).map Segment.to_addr))) :=
  rfl

/-- Claim C5: for every successful provider response, the summary's segments
are built in provider leg order, segment i carrying the i-th leg's start and
end addresses, `round(distance/100)/10` km and `round(duration/60)` min. -/
theorem C5_segments_per_leg (api_key origin : String) (destinations : List String)
    (data : DirectionsResponse) (route : RouteData) (rs : List RouteData)
    (hne : destinations ≠ []) (hok : data.status = "OK")
    (hroutes : data.routes = route :: rs) :
    ∃ summary : RouteSummary,
      (get_optimized_route_data api_key origin destinations (Except.ok data)).1
          = some summary ∧
      summary.segments = route.legs.map (fun leg =>
        { from_addr := leg.start_address
          to_addr := leg.end_address
          distance := (pyRound ((leg.distance_value : ℚ) / 100) : ℚ) / 10
          time := pyRound ((leg.duration_value : ℚ) / 60) }) := by
  refine ⟨route_summary_of_route route, ?_, ?_⟩
  · simp [get_optimized_route_data, hne, hok, hroutes]
  · simp [route_summary_of_route, segment_of_leg]

/-- Witness for C5 on a concrete one-leg `"OK"` response. -/
theorem C5_segments_per_leg_witness :
    ∃ summary : RouteSummary,
      (get_optimized_route_data "K" "O" ["A"] (Except.ok sampleOkResponse)).1
          = some summary ∧
      summary.segments = sampleRoute.legs.map (fun leg =>
        { from_addr := leg.start_address
          to_addr := leg.end_address
          distance := (pyRound ((leg.distance_value : ℚ) / 100) : ℚ) / 10
          time := pyRound ((leg.duration_value : ℚ) / 60) }) :=
  C5_segments_per_leg "K" "O" ["A"] sampleOkResponse sampleRoute []
    (by decide) rfl rfl

/-- Claim C6: for a document that cannot be opened or parsed, the extractor
returns the distinguished no-result value, which differs from the empty
list meaning zero addresses found. -/
theorem C6_parse_failure_distinct :
    read_addresses_from_excel none = none ∧
    read_addresses_from_excel none ≠ some [] :=
  ⟨rfl, fun h => Option.noConfusion h⟩

/-- Claim C7: with an empty destination list (and a non-empty origin), the
requester returns no summary and issues no HTTP request, and the optimize
action leaves the session state unchanged. -/
theorem C7_empty_destinations_no_request (api_key origin : String)
    (t : Except String DirectionsResponse) (st : AppState)
    (hd : st.destinations = []) (ho : origin ≠ "") :
    get_optimized_route_data api_key origin st.destinations t = (none, false) ∧
    optimize_handler api_key origin t st = st := by
  constructor
  · simp [get_optimized_route_data, hd]
  · simp [optimize_handler, hd]

/-- Witness for C7 on the fresh session state. -/
theorem C7_empty_destinations_no_request_witness :
    get_optimized_route_data "K" "O" emptyState.destinations (Except.error "down")
        = (none, false) ∧
    optimize_handler "K" "O" (Except.error "down") emptyState = emptyState :=
  C7_empty_destinations_no_request "K" "O" (Except.error "down") emptyState
    rfl (by decide)

/-- Claim C8: when an extraction yields more than 23 addresses, they are
placed in the pending-selection buffer and the destination list is left
unchanged by the extraction itself. -/
theorem C8_cap_pending_selection (doc : Option (List (List CellValue)))
    (st : AppState) (addrs : List String)
    (hread : read_addresses_from_excel doc = some addrs)
    (hlen : 23 < addrs.length) :
    (file_upload_handler doc st).destinations = st.destinations ∧
    (file_upload_handler doc st).addresses_to_select = some addrs := by
  have hne : addrs ≠ [] := by
    intro h
    rw [h] at hlen
    exact absurd hlen (by decide)
  simp [file_upload_handler, hread, hne, hlen]

/-- Witness for C8 on a sheet yielding 24 addresses. -/
theorem C8_cap_pending_selection_witness :
    (file_upload_handler (some bigSheet) emptyState).destinations
        = emptyState.destinations ∧
    (file_upload_handler (some bigSheet) emptyState).addresses_to_select
        = some (List.replicate 24 "東京都千代田区一番町1") :=
  C8_cap_pending_selection (some bigSheet) emptyState
    (List.replicate 24 "東京都千代田区一番町1") (by decide) (by decide)

/-- Claim C9: the empty segment sequence yields no URL and raises no error. -/
theorem C9_empty_segments_no_url (api_key origin : String) :
    open_in_Maps api_key origin [] = none :=
  rfl

/-- Claim C10: invoking the manual add-destination action while the input
field holds the empty string leaves the destination list unchanged. -/
theorem C10_empty_input_leaves_destinations (st : AppState)
    (h : st.new_dest_input = "") :
    (add_destination st).destinations = st.destinations := by
  simp [add_destination, h]

/-- Witness for C10 on the fresh session state, whose input field is empty. -/
theorem C10_empty_input_leaves_destinations_witness :
    (add_destination emptyState).destinations = emptyState.destinations :=
  C10_empty_input_leaves_destinations emptyState rfl

end RouteApp
